import Mathlib

/-
Verification of the worksheet REST layer (codalab/rest/worksheets.py).

The REST module is embedded shallowly: the worksheet store, the permission
oracle and the spec-utility helpers live outside this repository slice and are
modelled from the specification (each such definition carries a doc comment
beginning "Modelled from the spec:"); every other definition is translated
directly from the Python source.  Stateful code is expressed as explicit state
passing on a `St` record, fallible code returns `Except Err`.
-/

namespace Codalab

/-- Permission levels are the integers used by the model tables:
0 = no permission. -/
def GROUP_OBJECT_PERMISSION_NONE : Nat := 0

/-- Read permission level (codalab.model.tables.GROUP_OBJECT_PERMISSION_READ). -/
def GROUP_OBJECT_PERMISSION_READ : Nat := 1

/-- Full permission level (codalab.model.tables.GROUP_OBJECT_PERMISSION_ALL). -/
def GROUP_OBJECT_PERMISSION_ALL : Nat := 2

/-- Item type tags (worksheet_util.TYPE_BUNDLE and friends). -/
inductive ItemType
  | bundle
  | worksheet
  | markup
  | directive
deriving DecidableEq, Repr

/-- Error taxonomy from codalab.common.  In the source, NotFoundError is a
subclass of UsageError (visible in the src: convert_items_from_db catches
UsageError around a worksheet lookup that fails with a not-found condition,
while ensure_unused_worksheet_name catches the narrower NotFoundError);
`Err.isUsage` reproduces that subclass relation for except-clauses. -/
inductive Err
  | PermissionError (msg : String)
  | UsageError (msg : String)
  | NotFoundError (msg : String)
deriving DecidableEq, Repr

/-- Which errors a Python `except UsageError` catches (NotFoundError is a
subclass of UsageError). -/
def Err.isUsage : Err → Bool
  | .UsageError _ => true
  | .NotFoundError _ => true
  | .PermissionError _ => false

/-- Which errors a Python `except NotFoundError` catches. -/
def Err.isNotFound : Err → Bool
  | .NotFoundError _ => true
  | _ => false

/-- Decidable equality of results, so concrete runs evaluate by decide. -/
instance exceptDecEq {e a : Type} [DecidableEq e] [DecidableEq a] :
    DecidableEq (Except e a) := fun x y =>
  match x, y with
  | .error e1, .error e2 =>
    if h : e1 = e2 then .isTrue (by rw [h]) else
      .isFalse (fun hc => by cases hc; exact h rfl)
  | .ok a1, .ok a2 =>
    if h : a1 = a2 then .isTrue (by rw [h]) else
      .isFalse (fun hc => by cases hc; exact h rfl)
  | .error _, .ok _ => .isFalse (fun hc => by cases hc)
  | .ok _, .error _ => .isFalse (fun hc => by cases hc)

/-- An authenticated principal; anonymous callers are `none : Option User`. -/
structure User where
  user_id : String
  user_name : String
deriving DecidableEq, Repr

/-- Bundle info as returned by the external bundle directory. -/
structure BundleInfo where
  uuid : String
  owner_id : String
deriving DecidableEq, Repr

/-- Stored item tuple form: (bundle_uuid, subworksheet_uuid, value, type). -/
structure DBItem where
  bundle_uuid : Option String
  subworksheet_uuid : Option String
  value : String
  type : ItemType
deriving DecidableEq, Repr

/-- External ("virtual") item form handed to update_worksheet_items when
convert_items=True: (bundle_info, subworksheet_info, value_obj, type). -/
structure ExtItem where
  bundle_info : Option BundleInfo
  subworksheet_info : Option String
  value_obj : String
  type : ItemType
deriving DecidableEq, Repr

/-- A worksheet record as held by the store, including the version-token pair
(last_item_id together with the length of items). -/
structure Worksheet where
  uuid : String
  name : String
  owner_id : String
  title : Option String
  tags : List String
  frozen : Option Nat
  items : List DBItem
  last_item_id : Nat
deriving DecidableEq, Repr

/-- Rendering of a worksheet for error messages (the Python
`'%s' % (worksheet,)` interpolation). -/
def Worksheet.str (w : Worksheet) : String :=
  w.name ++ "(" ++ w.uuid ++ ")"

/-- One store-level mutation, recorded so that atomicity-per-operation facts
(how many store writes a request issues) are observable. -/
inductive StoreOp
  | replaceItems (uuid : String) (n : Nat)
  | appendItem (uuid : String)
  | updateMetadata (uuid : String)
  | deleteWorksheet (uuid : String)
  | setPermission (group_uuid : String) (worksheet_uuid : String)
  | createWorksheet (uuid : String)
deriving DecidableEq, Repr

/-- An item posted to the bulk /worksheet-items endpoint
(WorksheetItemSchema): the target worksheet plus the item tuple fields. -/
structure SchemaItem where
  worksheet_uuid : String
  bundle_uuid : Option String
  subworksheet_uuid : Option String
  value : String
  type : ItemType
deriving DecidableEq, Repr

/-- Worksheet.Item.as_tuple: the posted item without its target-worksheet
key. -/
def SchemaItem.as_tuple (i : SchemaItem) : DBItem :=
  { bundle_uuid := i.bundle_uuid
    subworksheet_uuid := i.subworksheet_uuid
    value := i.value
    type := i.type }

/-- The global server state: the worksheet store plus the directories the
REST layer consults.  `trace` records store-level mutations newest-first. -/
structure St where
  worksheets : List Worksheet
  users : List User
  groupPerms : List (String × String × Nat)
  memberships : List (String × String)
  public_group_uuid : String
  bundles : List BundleInfo
  templates : List (String × List ExtItem)
  next_uuid : Nat
  clock : Nat
  trace : List StoreOp
deriving DecidableEq, Repr

/-- Store lookup of a worksheet row by uuid. -/
def findWorksheet (s : St) (uuid : String) : Option Worksheet :=
  s.worksheets.find? (fun w => w.uuid == uuid)

/-- Modelled from the spec: whether `u` belongs to group `g`; the
distinguished public group applies to every caller including anonymous. -/
def isMember (s : St) (u : Option User) (g : String) : Bool :=
  g == s.public_group_uuid ||
    (match u with
     | some usr => s.memberships.any (fun m => m.1 == usr.user_id && m.2 == g)
     | none => false)

/-- Modelled from the spec (Permission Oracle): the owner always gets All;
otherwise the maximum permission across the ACL entries of groups the caller
belongs to. -/
def permissionLevel (s : St) (u : Option User) (w : Worksheet) : Nat :=
  if (match u with | some usr => usr.user_id == w.owner_id | none => false) then
    GROUP_OBJECT_PERMISSION_ALL
  else
    s.groupPerms.foldr
      (fun e acc => if isMember s u e.1 && e.2.1 == w.uuid then Nat.max e.2.2 acc else acc)
      GROUP_OBJECT_PERMISSION_NONE

/-- Message raised when the All-permission gate fails. -/
def permissionErrMsg (w : Worksheet) : String :=
  "User does not have all permission on worksheet " ++ w.uuid

/-- Message raised when the Read-permission gate fails. -/
def readErrMsg (w : Worksheet) : String :=
  "User does not have read permission on worksheet " ++ w.uuid

/-- Modelled from the spec: requireAll permission gate
(codalab.objects.permission.check_worksheet_has_all_permission). -/
def check_worksheet_has_all_permission (s : St) (u : Option User) (w : Worksheet) :
    Except Err Unit :=
  if GROUP_OBJECT_PERMISSION_ALL ≤ permissionLevel s u w then .ok ()
  else .error (.PermissionError (permissionErrMsg w))

/-- Modelled from the spec: requireRead permission gate
(codalab.objects.permission.check_worksheet_has_read_permission). -/
def check_worksheet_has_read_permission (s : St) (u : Option User) (w : Worksheet) :
    Except Err Unit :=
  if GROUP_OBJECT_PERMISSION_READ ≤ permissionLevel s u w then .ok ()
  else .error (.PermissionError (readErrMsg w))

/-- Message raised by the frozen gate. -/
def frozenErrMsg (w : Worksheet) : String :=
  "Cannot mutate frozen worksheet " ++ w.uuid

/-- Modelled from the spec: worksheet_util.check_worksheet_not_frozen rejects
any item mutation on a worksheet whose frozen timestamp is set. -/
def check_worksheet_not_frozen (w : Worksheet) : Except Err Unit :=
  match w.frozen with
  | some _ => .error (.UsageError (frozenErrMsg w))
  | none => .ok ()

/-- Modelled from the spec: store read `get(id, withItems)`
(local.model.get_worksheet); fails with NotFound for an unknown id. -/
def Store.get_worksheet (s : St) (uuid : String) : Except Err Worksheet :=
  match findWorksheet s uuid with
  | some w => .ok w
  | none => .error (.NotFoundError ("Worksheet " ++ uuid ++ " not found"))

/-- Apply `f` to every stored row with the given uuid. -/
def setWorksheet (s : St) (uuid : String) (f : Worksheet → Worksheet) : St :=
  { s with worksheets := s.worksheets.map (fun w => if w.uuid == uuid then f w else w) }

/-- Bookkeeping of a store write: advance the clock and record the trace. -/
def withClockTrace (s : St) (c : Nat) (tr : List StoreOp) : St :=
  { s with clock := c, trace := tr }

/-- Bookkeeping of a store write that leaves the clock alone. -/
def withTrace (s : St) (tr : List StoreOp) : St :=
  { s with trace := tr }

/-- Store-internal message for a lost-update conflict. -/
def storeConflictMsg (uuid : String) : String :=
  "Worksheet " ++ uuid ++ " was updated"

/-- Modelled from the spec: the conditional store write
`replaceItems(id, expectedLastItemId, expectedLength, newItems)`
(local.model.update_worksheet_items).  Atomic: when the stored version token
matches the expectation the items are replaced wholesale and the token
advances; on mismatch nothing changes and a conflict UsageError is raised. -/
def Store.replaceItems (s : St) (uuid : String) (expLast : Nat) (expLen : Nat)
    (newItems : List DBItem) : Except Err St :=
  match findWorksheet s uuid with
  | none => .error (.NotFoundError ("Worksheet " ++ uuid ++ " not found"))
  | some w =>
    if w.last_item_id == expLast && w.items.length == expLen then
      .ok (withClockTrace
        (setWorksheet s uuid (fun w0 => { w0 with items := newItems, last_item_id := s.clock + 1 }))
        (s.clock + 1)
        (StoreOp.replaceItems uuid newItems.length :: s.trace))
    else
      .error (.UsageError (storeConflictMsg uuid))

/-- Modelled from the spec: atomic single-item append
(local.model.add_worksheet_item); needs no caller-supplied token. -/
def Store.appendItem (s : St) (uuid : String) (item : DBItem) : Except Err St :=
  match findWorksheet s uuid with
  | none => .error (.NotFoundError ("Worksheet " ++ uuid ++ " not found"))
  | some _ =>
    .ok (withClockTrace
      (setWorksheet s uuid
        (fun w0 => { w0 with items := w0.items ++ [item], last_item_id := s.clock + 1 }))
      (s.clock + 1)
      (StoreOp.appendItem uuid :: s.trace))

/-- The metadata field set accumulated by update_worksheet_metadata before the
single store write. -/
structure Metadata where
  owner_id : Option String := none
  name : Option String := none
  title : Option (Option String) := none
  tags : Option (List String) := none
  frozen : Option Nat := none
deriving DecidableEq, Repr

/-- Apply an accumulated metadata dict to a stored worksheet row. -/
def applyMetadata (md : Metadata) (w : Worksheet) : Worksheet :=
  { w with
    owner_id := md.owner_id.getD w.owner_id
    name := md.name.getD w.name
    title := md.title.getD w.title
    tags := md.tags.getD w.tags
    frozen := match md.frozen with | some t => some t | none => w.frozen }

/-- Modelled from the spec: keyed metadata store write
(local.model.update_worksheet_metadata). -/
def Store.updateMetadata (s : St) (uuid : String) (md : Metadata) : St :=
  withTrace (setWorksheet s uuid (applyMetadata md)) (StoreOp.updateMetadata uuid :: s.trace)

/-- Modelled from the spec: store deletion (local.model.delete_worksheet). -/
def Store.delete (s : St) (uuid : String) : St :=
  { s with
    worksheets := s.worksheets.filter (fun w => !(w.uuid == uuid))
    trace := StoreOp.deleteWorksheet uuid :: s.trace }

/-- Modelled from the spec: keyed ACL upsert
(local.model.set_group_worksheet_permission). -/
def Store.setGroupPerm (s : St) (group_uuid : String) (worksheet_uuid : String)
    (permission : Nat) : St :=
  { s with
    groupPerms := (group_uuid, worksheet_uuid, permission) ::
      s.groupPerms.filter (fun e => !(e.1 == group_uuid && e.2.1 == worksheet_uuid))
    trace := StoreOp.setPermission group_uuid worksheet_uuid :: s.trace }

/-- Modelled from the spec: store creation (local.model.new_worksheet); the
caller-assembled row is inserted under a freshly generated uuid. -/
def Store.newWorksheet (s : St) (w : Worksheet) : St :=
  { s with
    worksheets := w :: s.worksheets
    next_uuid := s.next_uuid + 1
    clock := s.clock + 1
    trace := StoreOp.createWorksheet w.uuid :: s.trace }

/-- Modelled from the spec: fresh uuid generation (spec_util.generate_uuid). -/
def freshUuid (s : St) : String :=
  "0x" ++ toString s.next_uuid

/-- Modelled from the spec: user directory lookup by name
(local.model.find_user). -/
def find_user (s : St) (name : String) : Except Err User :=
  match s.users.find? (fun usr => usr.user_name == name) with
  | some usr => .ok usr
  | none => .error (.NotFoundError ("User " ++ name ++ " not found"))

/-- Modelled from the spec: the home-worksheet spec token
(codalab.lib.canonicalize.HOME_WORKSHEET). -/
def HOME_WORKSHEET : String := "/"

/-- Modelled from the spec: the deterministic home-worksheet name for a user
(spec_util.home_worksheet). -/
def home_worksheet (user_name : String) : String :=
  "home-" ++ user_name

/-- Modelled from the spec: whether a name is shaped like some home worksheet
(spec_util.is_home_worksheet). -/
def is_home_worksheet (name : String) : Bool :=
  "home-".data.isPrefixOf name.data

/-- Modelled from the spec: the dashboard token (spec_util.is_dashboard). -/
def is_dashboard (name : String) : Bool :=
  name == "dashboard"

/-- Modelled from the spec: the public home worksheet name
(spec_util.is_public_home). -/
def is_public_home (name : String) : Bool :=
  name == "home"

/-- The user name of the request principal; only evaluated on code paths
where the principal is present. -/
def optUserName : Option User → String
  | some usr => usr.user_name
  | none => ""

/-- Modelled from the spec: Resolver step 1
(codalab.lib.canonicalize.get_worksheet_uuid): an empty or home-token spec is
aliased to the caller's deterministic home-worksheet name, then the worksheet
is looked up by exact name; a miss is a NotFound failure. -/
def canonicalize_get_worksheet_uuid (s : St) (u : Option User)
    (_base_worksheet_uuid : Option String) (worksheet_spec : String) : Except Err String :=
  let spec1 :=
    if worksheet_spec == "" || worksheet_spec == HOME_WORKSHEET then
      match u with
      | some usr => home_worksheet usr.user_name
      | none => worksheet_spec
    else worksheet_spec
  match s.worksheets.find? (fun w => w.name == spec1) with
  | some w => .ok w.uuid
  | none => .error (.NotFoundError ("Worksheet " ++ spec1 ++ " not found"))

/-- The info object returned by get_worksheet_info: the worksheet metadata
plus (when fetched) the db-form items and the permission data. -/
structure WorksheetInfo where
  uuid : String
  name : String
  owner_id : String
  title : Option String
  frozen : Option Nat
  last_item_id : Nat
  items : List DBItem
  group_permissions : List (String × Nat)
  permission : Nat
deriving DecidableEq, Repr

/-- get_worksheet_info (worksheets.py:218): read the worksheet, gate on Read
permission, and assemble the info dict including the permission data relative
to the requesting user. -/
def get_worksheet_info (s : St) (u : Option User) (uuid : String) (fetch_items : Bool) :
    Except Err WorksheetInfo :=
  match Store.get_worksheet s uuid with
  | .error e => .error e
  | .ok w =>
    match check_worksheet_has_read_permission s u w with
    | .error e => .error e
    | .ok _ =>
      .ok { uuid := w.uuid
            name := w.name
            owner_id := w.owner_id
            title := w.title
            frozen := w.frozen
            last_item_id := w.last_item_id
            items := if fetch_items then w.items else []
            group_permissions :=
              (s.groupPerms.filter (fun e => e.2.1 == w.uuid)).map (fun e => (e.1, e.2.2))
            permission := permissionLevel s u w }

/-- worksheet_util.convert_item_to_db, modelled from the spec (Reconciler):
the external item representation is converted, order-preserving, to the
stored tuple form (bundleId or null, subWorksheetId or null, value, type). -/
def convert_item_to_db (it : ExtItem) : DBItem :=
  { bundle_uuid := it.bundle_info.map (fun b => b.uuid)
    subworksheet_uuid := it.subworksheet_info
    value := it.value_obj
    type := it.type }

/-- The user-facing lost-update message raised by update_worksheet_items. -/
def concurrentMsg (w : Worksheet) : String :=
  w.str ++ " was updated concurrently!"

/-- update_worksheet_items with convert_items=False (worksheets.py:283): the
version token (last_item_id, length of items) is taken from the caller's
previously fetched info, the worksheet is re-read from the store, the All
gate and the frozen gate run, then the single conditional store write; a
store UsageError is rewritten into the user-facing concurrent-update error.
(In the source the total item conversion also sits inside the try block;
being pure it cannot itself raise, so the two convert_items modes share this
core.) -/
def update_worksheet_items_db (s : St) (u : Option User) (worksheet_info : WorksheetInfo)
    (new_items : List DBItem) : Except Err St :=
  let worksheet_uuid := worksheet_info.uuid
  let last_item_id := worksheet_info.last_item_id
  let length := worksheet_info.items.length
  match Store.get_worksheet s worksheet_uuid with
  | .error e => .error e
  | .ok w =>
    match check_worksheet_has_all_permission s u w with
    | .error e => .error e
    | .ok _ =>
      match check_worksheet_not_frozen w with
      | .error e => .error e
      | .ok _ =>
        match Store.replaceItems s worksheet_uuid last_item_id length new_items with
        | .ok s1 => .ok s1
        | .error e =>
          if e.isUsage then .error (.UsageError (concurrentMsg w))
          else .error e

/-- update_worksheet_items with the default convert_items=True
(worksheets.py:283): each external item is converted to db form before the
conditional store write. -/
def update_worksheet_items (s : St) (u : Option User) (worksheet_info : WorksheetInfo)
    (new_items : List ExtItem) : Except Err St :=
  update_worksheet_items_db s u worksheet_info (new_items.map convert_item_to_db)

/-- One key/value entry of the info dict accepted by
update_worksheet_metadata. -/
inductive MetaField
  | owner_id (v : String)
  | owner_spec (v : String)
  | name (v : String)
  | title (v : Option String)
  | tags (v : List String)
  | freeze
  | frozen (truthy : Bool)
deriving DecidableEq, Repr

/-- ensure_unused_worksheet_name (worksheets.py:349): reject claiming what is
potentially another user's home-worksheet name, then require that resolution
of the name fails with NotFound. -/
def ensure_unused_worksheet_name (s : St) (u : Option User) (name : String) :
    Except Err Unit :=
  if is_home_worksheet name &&
      !(home_worksheet (optUserName u) == name) then
    .error (.UsageError ("Cannot create " ++ name ++
      " because this is potentially the home worksheet of another user"))
  else
    match canonicalize_get_worksheet_uuid s u none name with
    | .ok _ => .error (.UsageError ("Worksheet with name " ++ name ++ " already exists"))
    | .error e => if e.isNotFound then .ok () else .error e

/-- One iteration of the metadata-building loop of update_worksheet_metadata
(worksheets.py:310): `w` is the worksheet fetched at entry, `now` the current
timestamp.  The frozen key is acted on only when its value is truthy and the
worksheet is not already frozen; the legacy freeze key always stamps. -/
def applyMetaField (s : St) (u : Option User) (w : Worksheet) (now : Nat) (md : Metadata) :
    MetaField → Except Err Metadata
  | .owner_id v => .ok { md with owner_id := some v }
  | .owner_spec v =>
    match find_user s v with
    | .ok usr => .ok { md with owner_id := some usr.user_id }
    | .error e => .error e
  | .name v =>
    match ensure_unused_worksheet_name s u v with
    | .ok _ => .ok { md with name := some v }
    | .error e => .error e
  | .title v => .ok { md with title := some v }
  | .tags v => .ok { md with tags := some v }
  | .freeze => .ok { md with frozen := some now }
  | .frozen truthy =>
    if truthy && w.frozen == none then .ok { md with frozen := some now }
    else .ok md

/-- The full metadata-building loop of update_worksheet_metadata. -/
def buildMetadata (s : St) (u : Option User) (w : Worksheet) (now : Nat) :
    List MetaField → Metadata → Except Err Metadata
  | [], md => .ok md
  | f :: fs, md =>
    match applyMetaField s u w now md f with
    | .ok md1 => buildMetadata s u w now fs md1
    | .error e => .error e

/-- update_worksheet_metadata (worksheets.py:302): fetch the worksheet, gate
on All permission, fold the info entries into a metadata dict (validating
name changes and filtering the frozen key), then one store metadata write.
There is no frozen gate on this path. -/
def update_worksheet_metadata (s : St) (u : Option User) (uuid : String)
    (info : List MetaField) : Except Err St :=
  match Store.get_worksheet s uuid with
  | .error e => .error e
  | .ok w =>
    match check_worksheet_has_all_permission s u w with
    | .error e => .error e
    | .ok _ =>
      match buildMetadata s u w s.clock info {} with
      | .error e => .error e
      | .ok md => .ok (Store.updateMetadata s uuid md)

/-- set_worksheet_permission (worksheets.py:332): gate on All permission of
the passed worksheet object, then one keyed ACL store write. -/
def set_worksheet_permission (s : St) (u : Option User) (w : Worksheet)
    (group_uuid : String) (permission : Nat) : Except Err St :=
  match check_worksheet_has_all_permission s u w with
  | .error e => .error e
  | .ok _ => .ok (Store.setGroupPerm s group_uuid w.uuid permission)

/-- add_worksheet_item (worksheets.py:412): fetch the worksheet, gate on All
permission, gate on not-frozen, then one atomic store append. -/
def add_worksheet_item (s : St) (u : Option User) (worksheet_uuid : String)
    (item : DBItem) : Except Err St :=
  match Store.get_worksheet s worksheet_uuid with
  | .error e => .error e
  | .ok w =>
    match check_worksheet_has_all_permission s u w with
    | .error e => .error e
    | .ok _ =>
      match check_worksheet_not_frozen w with
      | .error e => .error e
      | .ok _ => Store.appendItem s worksheet_uuid item

/-- Message for deleting a frozen worksheet without force. -/
def deleteFrozenMsg (uuid : String) : String :=
  "Cannot delete worksheet " ++ uuid ++ " because it is frozen (--force to override)."

/-- Message for deleting a non-empty worksheet without force. -/
def deleteNonEmptyMsg (uuid : String) : String :=
  "Cannot delete worksheet " ++ uuid ++ " because it is not empty (--force to override)."

/-- delete_worksheet (worksheets.py:422): fetch with items, gate on All
permission; without force additionally require not-frozen (checked first)
and empty items; then one store deletion. -/
def delete_worksheet (s : St) (u : Option User) (uuid : String) (force : Bool) :
    Except Err St :=
  match Store.get_worksheet s uuid with
  | .error e => .error e
  | .ok w =>
    match check_worksheet_has_all_permission s u w with
    | .error e => .error e
    | .ok _ =>
      if !force && w.frozen.isSome then
        .error (.UsageError (deleteFrozenMsg w.uuid))
      else if !force && decide (w.items.length > 0) then
        .error (.UsageError (deleteNonEmptyMsg w.uuid))
      else
        .ok (Store.delete s uuid)

/-- Modelled from the spec: the parsed template worksheet form for the named
built-in worksheet file (worksheet_util.parse_worksheet_form over the
objects/<name>.ws file); the file contents are external, so the state carries
them. -/
def lookupTemplate (s : St) (name : String) : List ExtItem :=
  ((s.templates.find? (fun t => t.1 == name)).map (fun t => t.2)).getD []

/-- populate_worksheet (worksheets.py:340): parse the named template, fetch
the fresh worksheet info, replace the items, then set the title. -/
def populate_worksheet (s : St) (u : Option User) (w : Worksheet) (name : String)
    (title : String) : Except Err St :=
  let items := lookupTemplate s name
  match get_worksheet_info s u w.uuid true with
  | .error e => .error e
  | .ok info =>
    match update_worksheet_items s u info items with
    | .error e => .error e
    | .ok s1 => update_worksheet_metadata s1 u w.uuid [MetaField.title (some title)]

/-- new_worksheet (worksheets.py:366): require an authenticated caller,
advisory name-uniqueness check, store creation of the empty worksheet owned
by the caller, grant the public group Read, and populate the dashboard or
public-home templates when the name is one of those. -/
def new_worksheet (s : St) (u : Option User) (name : String) : Except Err (String × St) :=
  match u with
  | none => .error (.PermissionError "You must be logged in to create a worksheet.")
  | some usr =>
    match ensure_unused_worksheet_name s u name with
    | .error e => .error e
    | .ok _ =>
      let w : Worksheet :=
        { uuid := freshUuid s
          name := name
          owner_id := usr.user_id
          title := none
          tags := []
          frozen := none
          items := []
          last_item_id := s.clock }
      let s1 := Store.newWorksheet s w
      match set_worksheet_permission s1 u w s1.public_group_uuid GROUP_OBJECT_PERMISSION_READ with
      | .error e => .error e
      | .ok s2 =>
        match (if is_dashboard name then populate_worksheet s2 u w "dashboard" "CodaLab Dashboard"
               else .ok s2) with
        | .error e => .error e
        | .ok s3 =>
          match (if is_public_home name then populate_worksheet s3 u w "home" "Public Home"
                 else .ok s3) with
          | .error e => .error e
          | .ok s4 => .ok (w.uuid, s4)

/-- get_worksheet_uuid_or_create (worksheets.py:394), with the two store
snapshots made explicit to model a race: the resolution of step 1 reads
snapshot `s1` (the state at the time the caller resolved), while the
except-NotFoundError creation branch runs against the current state `s2`.
The sequential function is the diagonal `s1 = s2`. -/
def get_worksheet_uuid_or_create_race (s1 s2 : St) (u : Option User)
    (base_worksheet_uuid : Option String) (worksheet_spec : String) :
    Except Err (String × St) :=
  match canonicalize_get_worksheet_uuid s1 u base_worksheet_uuid worksheet_spec with
  | .ok uuid => .ok (uuid, s2)
  | .error e =>
    if e.isNotFound then
      if (worksheet_spec == "" || worksheet_spec == HOME_WORKSHEET) && u.isSome then
        new_worksheet s2 u (home_worksheet (optUserName u))
      else if is_dashboard worksheet_spec then
        new_worksheet s2 u worksheet_spec
      else .error e
    else .error e

/-- get_worksheet_uuid_or_create (worksheets.py:394): resolve the spec; on
NotFound lazily create the home worksheet (named after the caller) when the
spec is empty or the home token and a caller is present, or the dashboard
worksheet when the spec is the dashboard token; otherwise re-raise. -/
def get_worksheet_uuid_or_create (s : St) (u : Option User)
    (base_worksheet_uuid : Option String) (worksheet_spec : String) :
    Except Err (String × St) :=
  get_worksheet_uuid_or_create_race s s u base_worksheet_uuid worksheet_spec

/-- The response document assembled by fetch_worksheet: the worksheet info
and items plus the included bundle, user, sub-worksheet and permission
resources. -/
structure WorksheetDocument where
  info : WorksheetInfo
  items : List DBItem
  bundle_uuids : List String
  bundles : List BundleInfo
  user_ids : List String
  subworksheet_uuids : List String
  subworksheets : List Worksheet
  group_permissions : List (String × Nat)
deriving DecidableEq, Repr

/-- Modelled from the spec: the external bundle directory multiget
(rest.util.get_bundle_infos); returns info for the ids that still exist. -/
def get_bundle_infos (s : St) (uuids : List String) : List BundleInfo :=
  s.bundles.filter (fun b => uuids.contains b.uuid)

/-- fetch_worksheet (worksheets.py:37): fetch the info with items and
permissions, then include the bundles named by the non-null bundle uuids of
bundle-type items, the owners, and the sub-worksheets named by the non-null
subworksheet uuids of worksheet-type items.  (The Python set comprehensions
are modelled as lists whose membership is the set membership.) -/
def fetch_worksheet (s : St) (u : Option User) (uuid : String) :
    Except Err WorksheetDocument :=
  match get_worksheet_info s u uuid true with
  | .error e => .error e
  | .ok worksheet =>
    let bundle_uuids := worksheet.items.filterMap
      (fun it => if it.type == ItemType.bundle then it.bundle_uuid else none)
    let bundle_infos := get_bundle_infos s bundle_uuids
    let subworksheet_uuids := worksheet.items.filterMap
      (fun it => if it.type == ItemType.worksheet then it.subworksheet_uuid else none)
    .ok { info := worksheet
          items := worksheet.items
          bundle_uuids := bundle_uuids
          bundles := bundle_infos
          user_ids := worksheet.owner_id :: bundle_infos.map (fun b => b.owner_id)
          subworksheet_uuids := subworksheet_uuids
          subworksheets := s.worksheets.filter (fun w => subworksheet_uuids.contains w.uuid)
          group_permissions := worksheet.group_permissions }

/-- A rendered weak reference in the legacy item form: either the full info
dict of a target that exists, or the stub dict holding only the uuid. -/
inductive RenderedRef
  | full (uuid : String) (owner_id : String)
  | stub (uuid : String)
deriving DecidableEq, Repr

/-- The value_obj of a legacy item: directive values are tokenized at read
time, other values stay raw. -/
inductive ValueObj
  | raw (v : String)
  | tokens (ts : List String)
deriving DecidableEq, Repr

/-- Modelled from the spec: the markup tokenizer
(formatting.string_to_tokens), invoked only for directive items at read
time. -/
def string_to_tokens (v : String) : List String :=
  v.splitOn " "

/-- The legacy item form produced by convert_items_from_db:
(bundle_info, subworksheet_info, value_obj, type). -/
structure ConvertedItem where
  bundle_info : Option RenderedRef
  subworksheet_info : Option RenderedRef
  value_obj : ValueObj
  type : ItemType
deriving DecidableEq, Repr

/-- One item of convert_items_from_db (worksheets.py:248): a truthy
bundle_uuid is expanded through the bundle multiget with a uuid-only stub as
the default for a vanished bundle; a truthy subworksheet_uuid is expanded
through a worksheet lookup whose not-found UsageError is caught and replaced
by the uuid-only stub; directive values are tokenized. -/
def convertItemFromDb (s : St) (it : DBItem) : ConvertedItem :=
  { bundle_info :=
      match it.bundle_uuid with
      | some bu =>
        if bu == "" then none
        else some (match s.bundles.find? (fun b => b.uuid == bu) with
          | some b => RenderedRef.full b.uuid b.owner_id
          | none => RenderedRef.stub bu)
      | none => none
    subworksheet_info :=
      match it.subworksheet_uuid with
      | some su =>
        if su == "" then none
        else some (match findWorksheet s su with
          | some w => RenderedRef.full w.uuid w.owner_id
          | none => RenderedRef.stub su)
      | none => none
    value_obj :=
      if it.type == ItemType.directive then ValueObj.tokens (string_to_tokens it.value)
      else ValueObj.raw it.value
    type := it.type }

/-- convert_items_from_db (worksheets.py:248): item-wise legacy expansion. -/
def convert_items_from_db (s : St) (items : List DBItem) : List ConvertedItem :=
  items.map (convertItemFromDb s)

/-- The append-mode inner loop of create_worksheet_items (worksheets.py:192):
one add_worksheet_item store append per posted item. -/
def appendItems (s : St) (u : Option User) (worksheet_uuid : String) :
    List SchemaItem → Except Err St
  | [] => .ok s
  | item :: rest =>
    match add_worksheet_item s u worksheet_uuid item.as_tuple with
    | .ok s1 => appendItems s1 u worksheet_uuid rest
    | .error e => .error e

/-- The per-worksheet body of create_worksheet_items (worksheets.py:184):
fetch the worksheet info; in replace mode one whole-list conditional
replacement with all of the worksheet's batch items (convert_items=False),
otherwise append the items one by one. -/
def processItemGroup (s : St) (u : Option User) (replace : Bool)
    (worksheet_uuid : String) (items : List SchemaItem) : Except Err St :=
  match get_worksheet_info s u worksheet_uuid true with
  | .error e => .error e
  | .ok worksheet_info =>
    if replace then
      update_worksheet_items_db s u worksheet_info (items.map SchemaItem.as_tuple)
    else
      appendItems s u worksheet_uuid items

/-- First-occurrence deduplication, keeping order of first appearance. -/
def firstOccurrences : List String → List String
  | [] => []
  | x :: xs => x :: (firstOccurrences xs).filter (fun y => !(y == x))

/-- The worksheet_to_items grouping of create_worksheet_items
(worksheets.py:179): the dict built with setdefault holds, for each distinct
target worksheet uuid, all posted items with that uuid in posting order. -/
def groupByWorksheet (items : List SchemaItem) : List (String × List SchemaItem) :=
  (firstOccurrences (items.map (fun i => i.worksheet_uuid))).map
    (fun k => (k, items.filter (fun i => i.worksheet_uuid == k)))

/-- The outer loop of create_worksheet_items over the grouped batch. -/
def processGroups (s : St) (u : Option User) (replace : Bool) :
    List (String × List SchemaItem) → Except Err St
  | [] => .ok s
  | g :: rest =>
    match processItemGroup s u replace g.1 g.2 with
    | .ok s1 => processGroups s1 u replace rest
    | .error e => .error e

/-- create_worksheet_items (worksheets.py:166): group the posted items by
target worksheet and process each group under the replace flag. -/
def create_worksheet_items (s : St) (u : Option User) (replace : Bool)
    (new_items : List SchemaItem) : Except Err St :=
  processGroups s u replace (groupByWorksheet new_items)

/-- A sequence of update_worksheet_metadata calls (the bulk PATCH /worksheets
loop, worksheets.py:145), aborting at the first failure. -/
def runMetadataUpdates (s : St) (u : Option User) :
    List (String × List MetaField) → Except Err St
  | [] => .ok s
  | (uuid, info) :: rest =>
    match update_worksheet_metadata s u uuid info with
    | .ok s1 => runMetadataUpdates s1 u rest
    | .error e => .error e

/-- Number of item-write store operations (replacements or appends) that a
trace records against a given worksheet. -/
def countItemWriteOps (uuid : String) (tr : List StoreOp) : Nat :=
  (tr.filter (fun op =>
    match op with
    | StoreOp.replaceItems u2 _ => u2 == uuid
    | StoreOp.appendItem u2 => u2 == uuid
    | _ => false)).length

/-- Number of whole-list replacement store operations against a worksheet. -/
def countReplaceOps (uuid : String) (tr : List StoreOp) : Nat :=
  (tr.filter (fun op =>
    match op with
    | StoreOp.replaceItems u2 _ => u2 == uuid
    | _ => false)).length

/-- Number of single-item append store operations against a worksheet. -/
def countAppendOps (uuid : String) (tr : List StoreOp) : Nat :=
  (tr.filter (fun op =>
    match op with
    | StoreOp.appendItem u2 => u2 == uuid
    | _ => false)).length

/-- Whether the stored worksheet with the given uuid has its frozen timestamp
set. -/
def frozenSet (s : St) (uuid : String) : Bool :=
  match findWorksheet s uuid with
  | some w => w.frozen.isSome
  | none => false

/-- The current ACL entry of a group on a worksheet. -/
def lookupGroupPerm (s : St) (group_uuid : String) (worksheet_uuid : String) : Option Nat :=
  (s.groupPerms.find? (fun e => e.1 == group_uuid && e.2.1 == worksheet_uuid)).map
    (fun e => e.2.2)

/-- Fixture: an authenticated user who owns the sample worksheets. -/
def alice : User := { user_id := "u1", user_name := "alice" }

/-- Fixture: a second user with no permissions on the samples. -/
def bob : User := { user_id := "u2", user_name := "bob" }

/-- Fixture: a bundle-reference item. -/
def itemB : DBItem :=
  { bundle_uuid := some "b1", subworksheet_uuid := none, value := "", type := ItemType.bundle }

/-- Fixture: an unfrozen, empty worksheet owned by alice. -/
def wsA : Worksheet :=
  { uuid := "0xa", name := "wsA", owner_id := "u1", title := none, tags := []
    frozen := none, items := [], last_item_id := 0 }

/-- Fixture: a frozen, non-empty worksheet owned by alice. -/
def wsF : Worksheet :=
  { uuid := "0xf", name := "wsF", owner_id := "u1", title := none, tags := []
    frozen := some 5, items := [itemB], last_item_id := 3 }

/-- Fixture: a server state holding the two sample worksheets. -/
def baseSt : St :=
  { worksheets := [wsA, wsF], users := [alice, bob], groupPerms := []
    memberships := [], public_group_uuid := "gpub", bundles := [], templates := []
    next_uuid := 0, clock := 10, trace := [] }

/-- Fixture: the home worksheet of alice as created by a race winner. -/
def wsHomeAlice : Worksheet :=
  { uuid := "0xh", name := "home-alice", owner_id := "u1", title := none, tags := []
    frozen := none, items := [], last_item_id := 1 }

/-- Fixture: the state after the race winner created the home worksheet. -/
def winnerSt : St := { baseSt with worksheets := wsHomeAlice :: baseSt.worksheets }

/-- Fixture: the info a caller fetched for wsA, with the current token. -/
def winfoA : WorksheetInfo :=
  { uuid := "0xa", name := "wsA", owner_id := "u1", title := none, frozen := none
    last_item_id := 0, items := [], group_permissions := [], permission := 2 }

/-- Fixture: the info a caller fetched for wsA with a stale version token. -/
def winfoStale : WorksheetInfo := { winfoA with last_item_id := 7 }

/-- Fixture: a first posted item targeting wsA. -/
def si1 : SchemaItem :=
  { worksheet_uuid := "0xa", bundle_uuid := none, subworksheet_uuid := none
    value := "x", type := ItemType.markup }

/-- Fixture: a second posted item targeting wsA. -/
def si2 : SchemaItem := { si1 with value := "y" }

/-- The character data of a derived home-worksheet name. -/
theorem home_worksheet_data (n : String) :
    (home_worksheet n).data = 'h' :: 'o' :: 'm' :: 'e' :: '-' :: n.data := by
  simp [home_worksheet, String.data_append]

/-- The first character of a derived home-worksheet name. -/
theorem home_worksheet_head (n : String) :
    (home_worksheet n).data.head? = some 'h' := by
  simp [home_worksheet_data]

/-- A derived home-worksheet name is never the empty spec. -/
theorem home_worksheet_ne_empty (n : String) : (home_worksheet n == "") = false := by
  rw [beq_eq_false_iff_ne]
  intro h
  have h2 : (home_worksheet n).data.head? = ("" : String).data.head? := by rw [h]
  rw [home_worksheet_head] at h2
  exact absurd h2 (by decide)

/-- A derived home-worksheet name is never the home token. -/
theorem home_worksheet_ne_token (n : String) :
    (home_worksheet n == HOME_WORKSHEET) = false := by
  rw [beq_eq_false_iff_ne]
  intro h
  have h2 : (home_worksheet n).data.head? = HOME_WORKSHEET.data.head? := by rw [h]
  rw [home_worksheet_head] at h2
  exact absurd h2 (by decide)

/-- A derived home-worksheet name is never the dashboard name. -/
theorem home_worksheet_ne_dashboard (n : String) :
    is_dashboard (home_worksheet n) = false := by
  unfold is_dashboard
  rw [beq_eq_false_iff_ne]
  intro h
  have h2 : (home_worksheet n).data.head? = ("dashboard" : String).data.head? := by rw [h]
  rw [home_worksheet_head] at h2
  exact absurd h2 (by decide)

/-- A derived home-worksheet name is never the public home name. -/
theorem home_worksheet_ne_public_home (n : String) :
    is_public_home (home_worksheet n) = false := by
  unfold is_public_home
  rw [beq_eq_false_iff_ne]
  intro h
  have h2 : (home_worksheet n).data.length = ("home" : String).data.length := by rw [h]
  rw [home_worksheet_data] at h2
  simp at h2

/-- Finding by uuid commutes with mapping a uuid-preserving row function. -/
theorem find?_map_uuid (g : Worksheet → Worksheet) (hg : ∀ w, (g w).uuid = w.uuid)
    (uuid2 : String) (l : List Worksheet) :
    (l.map g).find? (fun w => w.uuid == uuid2) =
      (l.find? (fun w => w.uuid == uuid2)).map g := by
  rw [List.find?_map]
  have hp : ((fun w => w.uuid == uuid2) ∘ g) = (fun w => w.uuid == uuid2) :=
    funext (fun w => by simp [Function.comp, hg])
  rw [hp]

/-- Looking up any uuid after a uuid-preserving row update is the row-updated
original lookup. -/
theorem findWorksheet_setWorksheet (s : St) (uuid : String) (f : Worksheet → Worksheet)
    (hf : ∀ w, (f w).uuid = w.uuid) (uuid2 : String) :
    findWorksheet (setWorksheet s uuid f) uuid2 =
      (findWorksheet s uuid2).map (fun w => if w.uuid == uuid then f w else w) := by
  unfold findWorksheet setWorksheet
  exact find?_map_uuid (fun w => if w.uuid == uuid then f w else w)
    (fun w => by by_cases h : (w.uuid == uuid) = true <;> simp [h, hf]) uuid2 s.worksheets

/-- A state that differs only outside the worksheet table looks up rows
identically. -/
theorem findWorksheet_congr (s s2 : St) (h : s.worksheets = s2.worksheets)
    (uuid : String) : findWorksheet s uuid = findWorksheet s2 uuid := by
  unfold findWorksheet
  rw [h]

/-- A found worksheet row carries the looked-up uuid. -/
theorem findWorksheet_uuid (s : St) (uuid : String) (w : Worksheet)
    (h : findWorksheet s uuid = some w) : (w.uuid == uuid) = true := by
  unfold findWorksheet at h
  have h2 := List.find?_some h
  exact h2

/-- The permission fold is bounded below by any matching ACL entry. -/
theorem permFold_ge (s : St) (u : Option User) (wuuid : String)
    (l : List (String × String × Nat)) (g ws : String) (p : Nat)
    (hmem : (g, ws, p) ∈ l) (hcond : (isMember s u g && (ws == wuuid)) = true) :
    p ≤ l.foldr
      (fun e acc => if isMember s u e.1 && e.2.1 == wuuid then Nat.max e.2.2 acc else acc)
      GROUP_OBJECT_PERMISSION_NONE := by
  induction l with
  | nil => cases hmem
  | cons a l ih =>
    rcases List.mem_cons.mp hmem with h | h
    · subst h
      simp only [List.foldr_cons]
      rw [if_pos hcond]
      exact Nat.le_max_left _ _
    · simp only [List.foldr_cons]
      split
      · exact le_trans (ih h) (Nat.le_max_right _ _)
      · exact ih h

/-- A successful conditional replacement is exactly the token-checked row
update plus the trace entry. -/
theorem replaceItems_ok (s : St) (uuid : String) (expLast expLen : Nat)
    (its : List DBItem) (s1 : St) (h : Store.replaceItems s uuid expLast expLen its = .ok s1) :
    s1 = withClockTrace
      (setWorksheet s uuid (fun w0 => { w0 with items := its, last_item_id := s.clock + 1 }))
      (s.clock + 1) (StoreOp.replaceItems uuid its.length :: s.trace) := by
  unfold Store.replaceItems at h
  split at h
  · simp at h
  · split at h
    · cases h
      rfl
    · simp at h

/-- A successful append is exactly the row update plus the trace entry. -/
theorem appendItem_ok (s : St) (uuid : String) (item : DBItem) (s1 : St)
    (h : Store.appendItem s uuid item = .ok s1) :
    s1 = withClockTrace
      (setWorksheet s uuid
        (fun w0 => { w0 with items := w0.items ++ [item], last_item_id := s.clock + 1 }))
      (s.clock + 1) (StoreOp.appendItem uuid :: s.trace) := by
  unfold Store.appendItem at h
  split at h
  · simp at h
  · cases h
    rfl

/-- A successful whole-list item update is exactly one conditional store
replacement. -/
theorem update_worksheet_items_db_ok (s : St) (u : Option User) (wi : WorksheetInfo)
    (its : List DBItem) (s1 : St) (h : update_worksheet_items_db s u wi its = .ok s1) :
    s1 = withClockTrace
      (setWorksheet s wi.uuid (fun w0 => { w0 with items := its, last_item_id := s.clock + 1 }))
      (s.clock + 1) (StoreOp.replaceItems wi.uuid its.length :: s.trace) := by
  simp only [update_worksheet_items_db] at h
  split at h
  · simp at h
  · split at h
    · simp at h
    · split at h
      · simp at h
      · split at h
        · rename_i heq
          cases h
          exact replaceItems_ok _ _ _ _ _ _ heq
        · split at h <;> simp at h

/-- A successful single-item add is exactly one store append. -/
theorem add_worksheet_item_ok (s : St) (u : Option User) (uuid : String)
    (item : DBItem) (s1 : St) (h : add_worksheet_item s u uuid item = .ok s1) :
    s1 = withClockTrace
      (setWorksheet s uuid
        (fun w0 => { w0 with items := w0.items ++ [item], last_item_id := s.clock + 1 }))
      (s.clock + 1) (StoreOp.appendItem uuid :: s.trace) := by
  unfold add_worksheet_item at h
  split at h
  · simp at h
  · split at h
    · simp at h
    · split at h
      · simp at h
      · exact appendItem_ok _ _ _ _ h

/-- A successful metadata update is exactly one store metadata write. -/
theorem update_worksheet_metadata_ok (s : St) (u : Option User) (uuid : String)
    (info : List MetaField) (s1 : St) (h : update_worksheet_metadata s u uuid info = .ok s1) :
    ∃ md, s1 = Store.updateMetadata s uuid md := by
  unfold update_worksheet_metadata at h
  split at h
  · simp at h
  · split at h
    · simp at h
    · split at h
      · simp at h
      · rename_i md heq
        cases h
        exact ⟨md, rfl⟩

/-- A successful permission grant is exactly one keyed ACL store write. -/
theorem set_worksheet_permission_ok (s : St) (u : Option User) (w : Worksheet)
    (g : String) (p : Nat) (s1 : St) (h : set_worksheet_permission s u w g p = .ok s1) :
    s1 = Store.setGroupPerm s g w.uuid p := by
  unfold set_worksheet_permission at h
  split at h
  · simp at h
  · cases h
    rfl

/-- Clock/trace bookkeeping does not change lookups. -/
theorem findWorksheet_withClockTrace (s : St) (c : Nat) (tr : List StoreOp)
    (uuid2 : String) : findWorksheet (withClockTrace s c tr) uuid2 = findWorksheet s uuid2 :=
  rfl

/-- Trace bookkeeping does not change lookups. -/
theorem findWorksheet_withTrace (s : St) (tr : List StoreOp) (uuid2 : String) :
    findWorksheet (withTrace s tr) uuid2 = findWorksheet s uuid2 :=
  rfl

/-- C1: update_worksheet_items checks All permission first, then the frozen
gate, then converts the items and issues the single conditional store write
keyed on the version token (last_item_id, item-list length) captured from the
caller's previously fetched worksheet info; when the conditional write fails
it raises exactly the one user-facing concurrent-update error (an error
result carries no successor state, so nothing is applied and nothing is
retried). -/
theorem update_worksheet_items_sequencing
    (s : St) (u : Option User) (winfo : WorksheetInfo) (new_items : List ExtItem)
    (w : Worksheet) (hfind : findWorksheet s winfo.uuid = some w) :
    (¬ GROUP_OBJECT_PERMISSION_ALL ≤ permissionLevel s u w →
      update_worksheet_items s u winfo new_items =
        .error (.PermissionError (permissionErrMsg w)))
    ∧ (GROUP_OBJECT_PERMISSION_ALL ≤ permissionLevel s u w → w.frozen.isSome = true →
      update_worksheet_items s u winfo new_items = .error (.UsageError (frozenErrMsg w)))
    ∧ (GROUP_OBJECT_PERMISSION_ALL ≤ permissionLevel s u w → w.frozen = none →
      ((w.last_item_id == winfo.last_item_id) && (w.items.length == winfo.items.length)) = false →
      update_worksheet_items s u winfo new_items = .error (.UsageError (concurrentMsg w)))
    ∧ (GROUP_OBJECT_PERMISSION_ALL ≤ permissionLevel s u w → w.frozen = none →
      w.last_item_id = winfo.last_item_id → w.items.length = winfo.items.length →
      ∃ s1, update_worksheet_items s u winfo new_items = .ok s1 ∧
        (findWorksheet s1 winfo.uuid).map Worksheet.items =
          some (new_items.map convert_item_to_db) ∧
        s1.trace = StoreOp.replaceItems winfo.uuid (new_items.map convert_item_to_db).length
          :: s.trace) := by
  refine ⟨?_, ?_, ?_, ?_⟩
  · intro hp
    simp only [update_worksheet_items, update_worksheet_items_db, Store.get_worksheet,
      hfind, check_worksheet_has_all_permission, if_neg hp]
  · intro hp hf
    obtain ⟨t, ht⟩ := Option.isSome_iff_exists.mp hf
    simp only [update_worksheet_items, update_worksheet_items_db, Store.get_worksheet,
      hfind, check_worksheet_has_all_permission, if_pos hp, check_worksheet_not_frozen, ht]
  · intro hp hfz htok
    simp only [update_worksheet_items, update_worksheet_items_db, Store.get_worksheet,
      hfind, check_worksheet_has_all_permission, if_pos hp, check_worksheet_not_frozen,
      hfz, Store.replaceItems, htok, Bool.false_eq_true, if_false, Err.isUsage]
    simp
  · intro hp hfz h1 h2
    simp only [update_worksheet_items, update_worksheet_items_db, Store.get_worksheet,
      hfind, check_worksheet_has_all_permission, if_pos hp, check_worksheet_not_frozen,
      hfz, Store.replaceItems, h1, h2, beq_self_eq_true, Bool.and_self, if_true]
    refine ⟨_, rfl, ?_, rfl⟩
    rw [findWorksheet_withClockTrace,
      findWorksheet_setWorksheet s winfo.uuid
        (fun w0 => { w0 with items := new_items.map convert_item_to_db, last_item_id := s.clock + 1 })
        (fun w0 => rfl), hfind]
    have he : w.uuid = winfo.uuid := eq_of_beq (findWorksheet_uuid s winfo.uuid w hfind)
    simp [he]

/-- C1 witness: with the current token stale (the sample info carries token 7
while the stored worksheet has token 0) the owner receives exactly the
user-facing concurrent-update error. -/
theorem update_worksheet_items_sequencing_witness :
    update_worksheet_items baseSt (some alice) winfoStale [] =
      .error (.UsageError (concurrentMsg wsA)) :=
  (update_worksheet_items_sequencing baseSt (some alice) winfoStale [] wsA
    (by decide)).2.2.1 (by decide) (by decide) (by decide)

/-- C5: every mutating operation (item replacement, item append, metadata
update, permission grant, deletion) fails with PermissionDenied before any
state change when the caller lacks All permission on the target worksheet (an
error result carries no successor state), while fetching worksheet info
succeeds with Read permission alone. -/
theorem mutations_require_all_permission
    (s : St) (u : Option User) (uuid : String) (w : Worksheet)
    (hfind : findWorksheet s uuid = some w)
    (hperm : ¬ GROUP_OBJECT_PERMISSION_ALL ≤ permissionLevel s u w) :
    (∀ (winfo : WorksheetInfo) (new_items : List ExtItem), winfo.uuid = uuid →
      update_worksheet_items s u winfo new_items =
        .error (.PermissionError (permissionErrMsg w)))
    ∧ (∀ item, add_worksheet_item s u uuid item =
        .error (.PermissionError (permissionErrMsg w)))
    ∧ (∀ info, update_worksheet_metadata s u uuid info =
        .error (.PermissionError (permissionErrMsg w)))
    ∧ (∀ g p, set_worksheet_permission s u w g p =
        .error (.PermissionError (permissionErrMsg w)))
    ∧ (∀ force, delete_worksheet s u uuid force =
        .error (.PermissionError (permissionErrMsg w)))
    ∧ (∀ fetch_items, GROUP_OBJECT_PERMISSION_READ ≤ permissionLevel s u w →
        ∃ info, get_worksheet_info s u uuid fetch_items = .ok info) := by
  refine ⟨?_, ?_, ?_, ?_, ?_, ?_⟩
  · intro winfo new_items he
    simp only [update_worksheet_items, update_worksheet_items_db, Store.get_worksheet,
      he, hfind, check_worksheet_has_all_permission, if_neg hperm]
  · intro item
    simp only [add_worksheet_item, Store.get_worksheet, hfind,
      check_worksheet_has_all_permission, if_neg hperm]
  · intro info
    simp only [update_worksheet_metadata, Store.get_worksheet, hfind,
      check_worksheet_has_all_permission, if_neg hperm]
  · intro g p
    simp only [set_worksheet_permission, check_worksheet_has_all_permission, if_neg hperm]
  · intro force
    simp only [delete_worksheet, Store.get_worksheet, hfind,
      check_worksheet_has_all_permission, if_neg hperm]
  · intro fetch_items hr
    simp only [get_worksheet_info, Store.get_worksheet, hfind,
      check_worksheet_has_read_permission, if_pos hr]
    exact ⟨_, rfl⟩

/-- C5 witness: bob holds no permission on wsA, so even a forced deletion is
rejected with the permission error. -/
theorem mutations_require_all_permission_witness :
    delete_worksheet baseSt (some bob) "0xa" true =
      .error (.PermissionError (permissionErrMsg wsA)) :=
  (mutations_require_all_permission baseSt (some bob) "0xa" wsA
    (by decide) (by decide)).2.2.2.2.1 true

/-- C6: delete_worksheet requires All permission; without force it fails with
the descriptive frozen precondition error on a frozen worksheet and with the
descriptive non-empty precondition error on a non-empty one (an error result
carries no successor state, so the worksheet is unchanged); with force both
checks are bypassed and the worksheet row is removed from the store. -/
theorem delete_worksheet_contract
    (s : St) (u : Option User) (uuid : String) (w : Worksheet)
    (hfind : findWorksheet s uuid = some w) :
    (¬ GROUP_OBJECT_PERMISSION_ALL ≤ permissionLevel s u w → ∀ force,
      delete_worksheet s u uuid force = .error (.PermissionError (permissionErrMsg w)))
    ∧ (GROUP_OBJECT_PERMISSION_ALL ≤ permissionLevel s u w → w.frozen.isSome = true →
      delete_worksheet s u uuid false = .error (.UsageError (deleteFrozenMsg w.uuid)))
    ∧ (GROUP_OBJECT_PERMISSION_ALL ≤ permissionLevel s u w → w.frozen = none →
      w.items ≠ [] →
      delete_worksheet s u uuid false = .error (.UsageError (deleteNonEmptyMsg w.uuid)))
    ∧ (GROUP_OBJECT_PERMISSION_ALL ≤ permissionLevel s u w →
      delete_worksheet s u uuid true = .ok (Store.delete s uuid) ∧
      findWorksheet (Store.delete s uuid) uuid = none)
    ∧ (GROUP_OBJECT_PERMISSION_ALL ≤ permissionLevel s u w → w.frozen = none →
      w.items = [] →
      delete_worksheet s u uuid false = .ok (Store.delete s uuid)) := by
  have hgone : findWorksheet (Store.delete s uuid) uuid = none := by
    unfold findWorksheet Store.delete
    simp only [List.find?_eq_none]
    intro x hx
    have hmem := List.mem_filter.mp hx
    simp only [Bool.not_eq_true'] at hmem
    simp [hmem.2]
  refine ⟨?_, ?_, ?_, ?_, ?_⟩
  · intro hperm force
    simp only [delete_worksheet, Store.get_worksheet, hfind,
      check_worksheet_has_all_permission, if_neg hperm]
  · intro hperm hf
    simp only [delete_worksheet, Store.get_worksheet, hfind,
      check_worksheet_has_all_permission, if_pos hperm]
    simp [hf]
  · intro hperm hfz hne
    simp only [delete_worksheet, Store.get_worksheet, hfind,
      check_worksheet_has_all_permission, if_pos hperm]
    simp [hfz, hne]
  · intro hperm
    refine ⟨?_, hgone⟩
    simp only [delete_worksheet, Store.get_worksheet, hfind,
      check_worksheet_has_all_permission, if_pos hperm]
    simp
  · intro hperm hfz hempty
    simp only [delete_worksheet, Store.get_worksheet, hfind,
      check_worksheet_has_all_permission, if_pos hperm]
    simp [hfz, hempty]

/-- C6 witness: the owner deleting the frozen, non-empty sample worksheet
without force receives the frozen precondition error. -/
theorem delete_worksheet_contract_witness :
    delete_worksheet baseSt (some alice) "0xf" false =
      .error (.UsageError (deleteFrozenMsg wsF.uuid)) :=
  (delete_worksheet_contract baseSt (some alice) "0xf" wsF
    (by decide)).2.1 (by decide) (by decide)

/-- C2 counterexample: the claim says no metadata mutation succeeds on a
frozen worksheet, but update_worksheet_metadata has no frozen gate: on the
frozen sample worksheet a title update succeeds and the stored title
changes. -/
theorem frozen_metadata_mutation_succeeds :
    frozenSet baseSt "0xf" = true ∧
    (update_worksheet_metadata baseSt (some alice) "0xf"
        [MetaField.title (some "t")]).toOption.map
      (fun s1 => (findWorksheet s1 "0xf").map Worksheet.title) =
      some (some (some "t")) := by
  decide

/-- C2 amended: on a frozen worksheet the item mutations
(update_worksheet_items and add_worksheet_item) are always rejected without
any state change, but update_worksheet_metadata performs no frozen check and
can succeed on a frozen worksheet (witnessed by the sample state). -/
theorem frozen_blocks_item_mutations
    (s : St) (u : Option User) (uuid : String) (w : Worksheet)
    (hfind : findWorksheet s uuid = some w) (hf : w.frozen.isSome = true) :
    (∀ (winfo : WorksheetInfo) (new_items : List ExtItem), winfo.uuid = uuid →
      (update_worksheet_items s u winfo new_items).toOption = none)
    ∧ (∀ item, (add_worksheet_item s u uuid item).toOption = none)
    ∧ (update_worksheet_metadata baseSt (some alice) "0xf"
        [MetaField.title (some "t")]).toOption.isSome = true := by
  obtain ⟨t, ht⟩ := Option.isSome_iff_exists.mp hf
  refine ⟨?_, ?_, by decide⟩
  · intro winfo new_items he
    by_cases hp : GROUP_OBJECT_PERMISSION_ALL ≤ permissionLevel s u w
    · simp only [update_worksheet_items, update_worksheet_items_db, Store.get_worksheet,
        he, hfind, check_worksheet_has_all_permission, if_pos hp,
        check_worksheet_not_frozen, ht]
      rfl
    · simp only [update_worksheet_items, update_worksheet_items_db, Store.get_worksheet,
        he, hfind, check_worksheet_has_all_permission, if_neg hp]
      rfl
  · intro item
    by_cases hp : GROUP_OBJECT_PERMISSION_ALL ≤ permissionLevel s u w
    · simp only [add_worksheet_item, Store.get_worksheet, hfind,
        check_worksheet_has_all_permission, if_pos hp, check_worksheet_not_frozen, ht]
      rfl
    · simp only [add_worksheet_item, Store.get_worksheet, hfind,
        check_worksheet_has_all_permission, if_neg hp]
      rfl

/-- C2 witness: appending to the frozen sample worksheet is rejected. -/
theorem frozen_blocks_item_mutations_witness :
    (add_worksheet_item baseSt (some alice) "0xf" itemB).toOption = none :=
  (frozen_blocks_item_mutations baseSt (some alice) "0xf" wsF
    (by decide) (by decide)).2.1 itemB

/-- One successful metadata update keeps every frozen worksheet frozen: the
accumulated metadata only ever sets the frozen field to a timestamp, never to
unset. -/
theorem update_worksheet_metadata_preserves_frozen (s : St) (u : Option User)
    (uuid2 : String) (info : List MetaField) (s1 : St)
    (h : update_worksheet_metadata s u uuid2 info = .ok s1)
    (uuid : String) (hf : frozenSet s uuid = true) : frozenSet s1 uuid = true := by
  obtain ⟨md, rfl⟩ := update_worksheet_metadata_ok s u uuid2 info s1 h
  unfold frozenSet at hf ⊢
  unfold Store.updateMetadata
  rw [findWorksheet_withTrace, findWorksheet_setWorksheet s uuid2 (applyMetadata md)
    (fun w0 => rfl)]
  cases hw : findWorksheet s uuid with
  | none =>
    rw [hw] at hf
    exact absurd hf (by simp)
  | some w =>
    have hf2 : w.frozen.isSome = true := by rw [hw] at hf; exact hf
    simp only [Option.map_some']
    by_cases hc : (w.uuid == uuid2) = true
    · simp only [if_pos hc]
      show (applyMetadata md w).frozen.isSome = true
      unfold applyMetadata
      cases hmd : md.frozen
      · simpa using hf2
      · simp
    · simp only [if_neg hc]
      exact hf2

/-- C8: once frozen, always frozen: across any sequence of
update_worksheet_metadata calls a frozen worksheet stays frozen, and in a
single call the frozen request key is acted on only when its value is truthy
and the worksheet is not already frozen (otherwise it contributes nothing to
the metadata write). -/
theorem frozen_one_way
    (s : St) (u : Option User) (updates : List (String × List MetaField)) (s1 : St)
    (h : runMetadataUpdates s u updates = .ok s1) :
    (∀ uuid, frozenSet s uuid = true → frozenSet s1 uuid = true)
    ∧ (∀ (w : Worksheet) (now : Nat) (md : Metadata) (b : Bool), w.frozen.isSome = true →
        applyMetaField s u w now md (MetaField.frozen b) = .ok md)
    ∧ (∀ (w : Worksheet) (now : Nat) (md : Metadata),
        applyMetaField s u w now md (MetaField.frozen false) = .ok md) := by
  refine ⟨?_, ?_, ?_⟩
  · have main : ∀ (ups : List (String × List MetaField)) (s0 sf : St),
        runMetadataUpdates s0 u ups = .ok sf →
        ∀ uuid, frozenSet s0 uuid = true → frozenSet sf uuid = true := by
      intro ups
      induction ups with
      | nil =>
        intro s0 sf h0 uuid hf
        unfold runMetadataUpdates at h0
        cases h0
        exact hf
      | cons p rest ih =>
        intro s0 sf h0 uuid hf
        obtain ⟨pu, pinfo⟩ := p
        unfold runMetadataUpdates at h0
        split at h0
        · rename_i sA heq
          exact ih sA sf h0 uuid
            (update_worksheet_metadata_preserves_frozen s0 u pu pinfo sA heq uuid hf)
        · simp at h0
    exact main updates s s1 h
  · intro w now md b hw
    obtain ⟨t, ht⟩ := Option.isSome_iff_exists.mp hw
    simp [applyMetaField, ht]
  · intro w now md
    simp [applyMetaField]

/-- C8 witness: after a title update on the frozen sample worksheet it is
still frozen. -/
theorem frozen_one_way_witness :
    (runMetadataUpdates baseSt (some alice)
        [("0xf", [MetaField.title (some "x")])]).toOption.map
      (fun s1 => frozenSet s1 "0xf") = some true := by
  cases hr : runMetadataUpdates baseSt (some alice) [("0xf", [MetaField.title (some "x")])] with
  | error e =>
    have hok : (runMetadataUpdates baseSt (some alice)
        [("0xf", [MetaField.title (some "x")])]).toOption.isSome = true := by decide
    rw [hr] at hok
    simp [Except.toOption] at hok
  | ok s1 =>
    have h1 := (frozen_one_way baseSt (some alice)
      [("0xf", [MetaField.title (some "x")])] s1 hr).1 "0xf" (by decide)
    simpa [Except.toOption] using h1

/-- Membership in a type-filtered uuid projection of an item list. -/
theorem mem_typeFilter (items : List DBItem) (t : ItemType) (sel : DBItem → Option String)
    (x : String) :
    (x ∈ items.filterMap (fun it => if it.type == t then sel it else none)) ↔
      ∃ it, it ∈ items ∧ it.type = t ∧ sel it = some x := by
  rw [List.mem_filterMap]
  constructor
  · rintro ⟨it, hmem, hf⟩
    by_cases ht : (it.type == t) = true
    · exact ⟨it, hmem, eq_of_beq ht, by rwa [if_pos ht] at hf⟩
    · rw [if_neg ht] at hf
      cases hf
  · rintro ⟨it, hmem, ht, hs⟩
    refine ⟨it, hmem, ?_⟩
    rw [if_pos (by simp [ht])]
    exact hs

/-- A successful info fetch names a stored worksheet and copies its fields. -/
theorem get_worksheet_info_ok (s : St) (u : Option User) (uuid : String) (fi : Bool)
    (info : WorksheetInfo) (h : get_worksheet_info s u uuid fi = .ok info) :
    ∃ w, findWorksheet s uuid = some w ∧ info.uuid = w.uuid ∧
      info.last_item_id = w.last_item_id ∧ (fi = true → info.items = w.items) := by
  unfold get_worksheet_info at h
  split at h
  · simp at h
  · rename_i w heq
    split at h
    · simp at h
    · cases h
      unfold Store.get_worksheet at heq
      cases hf : findWorksheet s uuid with
      | none =>
        rw [hf] at heq
        simp at heq
      | some w2 =>
        rw [hf] at heq
        have hw : w2 = w := Except.ok.inj heq
        subst hw
        exact ⟨w2, rfl, rfl, rfl, fun hfi => by simp [hfi]⟩

/-- C9: the fetched document names exactly the non-null bundle uuids of
bundle-type items and the non-null sub-worksheet uuids of worksheet-type
items of the stored item list, with no extras and no omissions; and in the
legacy conversion a dangling bundle or sub-worksheet reference renders as a
stub holding only its uuid. -/
theorem fetch_worksheet_reference_exactness :
    (∀ (s : St) (u : Option User) (uuid : String) (doc : WorksheetDocument) (w : Worksheet),
      fetch_worksheet s u uuid = .ok doc → findWorksheet s uuid = some w →
      (∀ bu, bu ∈ doc.bundle_uuids ↔
        ∃ it, it ∈ w.items ∧ it.type = ItemType.bundle ∧ it.bundle_uuid = some bu)
      ∧ (∀ su, su ∈ doc.subworksheet_uuids ↔
        ∃ it, it ∈ w.items ∧ it.type = ItemType.worksheet ∧ it.subworksheet_uuid = some su))
    ∧ (∀ (s : St) (it : DBItem) (bu : String), it.bundle_uuid = some bu →
        (bu == "") = false → s.bundles.find? (fun b => b.uuid == bu) = none →
        (convertItemFromDb s it).bundle_info = some (RenderedRef.stub bu))
    ∧ (∀ (s : St) (it : DBItem) (su : String), it.subworksheet_uuid = some su →
        (su == "") = false → findWorksheet s su = none →
        (convertItemFromDb s it).subworksheet_info = some (RenderedRef.stub su))
    ∧ (∀ (s : St) (items : List DBItem),
        convert_items_from_db s items = items.map (convertItemFromDb s)) := by
  refine ⟨?_, ?_, ?_, fun s items => rfl⟩
  · intro s u uuid doc w hok hfind
    unfold fetch_worksheet at hok
    split at hok
    · simp at hok
    · rename_i info heq
      obtain ⟨w2, hf2, _, _, hitems⟩ := get_worksheet_info_ok s u uuid true info heq
      rw [hfind] at hf2
      cases hf2
      have hit : info.items = w.items := hitems rfl
      cases hok
      constructor
      · intro bu
        show bu ∈ info.items.filterMap
            (fun it => if it.type == ItemType.bundle then it.bundle_uuid else none) ↔ _
        rw [hit]
        exact mem_typeFilter w.items ItemType.bundle (fun it => it.bundle_uuid) bu
      · intro su
        show su ∈ info.items.filterMap
            (fun it => if it.type == ItemType.worksheet then it.subworksheet_uuid else none) ↔ _
        rw [hit]
        exact mem_typeFilter w.items ItemType.worksheet (fun it => it.subworksheet_uuid) su
  · intro s it bu hb hbe hfb
    unfold convertItemFromDb
    simp [hb, hbe, hfb]
  · intro s it su hs hse hfs
    unfold convertItemFromDb
    simp [hs, hse, hfs]

/-- C9 witness: the sample bundle item references bundle b1 which is absent
from the bundle directory, so the legacy conversion renders the stub. -/
theorem fetch_worksheet_reference_exactness_witness :
    (convertItemFromDb baseSt itemB).bundle_info = some (RenderedRef.stub "b1") :=
  fetch_worksheet_reference_exactness.2.1 baseSt itemB "b1" rfl (by decide) (by decide)

/-- A whole-list item update never touches the ACL state. -/
theorem update_worksheet_items_db_acl (s : St) (u : Option User) (wi : WorksheetInfo)
    (its : List DBItem) (s1 : St) (h : update_worksheet_items_db s u wi its = .ok s1) :
    s1.groupPerms = s.groupPerms ∧ s1.public_group_uuid = s.public_group_uuid ∧
      s1.memberships = s.memberships := by
  have hrec := update_worksheet_items_db_ok s u wi its s1 h
  subst hrec
  exact ⟨rfl, rfl, rfl⟩

/-- A metadata update never touches the ACL state. -/
theorem update_worksheet_metadata_acl (s : St) (u : Option User) (uuid : String)
    (info : List MetaField) (s1 : St) (h : update_worksheet_metadata s u uuid info = .ok s1) :
    s1.groupPerms = s.groupPerms ∧ s1.public_group_uuid = s.public_group_uuid ∧
      s1.memberships = s.memberships := by
  obtain ⟨md, hrec⟩ := update_worksheet_metadata_ok s u uuid info s1 h
  subst hrec
  exact ⟨rfl, rfl, rfl⟩

/-- Populating a template worksheet never touches the ACL state. -/
theorem populate_worksheet_acl (s : St) (u : Option User) (w : Worksheet)
    (name title : String) (s1 : St) (h : populate_worksheet s u w name title = .ok s1) :
    s1.groupPerms = s.groupPerms ∧ s1.public_group_uuid = s.public_group_uuid ∧
      s1.memberships = s.memberships := by
  simp only [populate_worksheet] at h
  split at h
  · simp at h
  · split at h
    · simp at h
    · rename_i sA heqA
      have tA := update_worksheet_items_db_acl _ _ _ _ _ heqA
      have tB := update_worksheet_metadata_acl _ _ _ _ _ h
      exact ⟨tB.1.trans tA.1, tB.2.1.trans tA.2.1, tB.2.2.trans tA.2.2⟩

/-- A successful creation returns the fresh uuid and leaves the ACL state at
exactly the creation-time grant of public Read on the new worksheet. -/
theorem new_worksheet_ok (s : St) (u : Option User) (name : String) (uuid : String)
    (s1 : St) (h : new_worksheet s u name = .ok (uuid, s1)) :
    uuid = freshUuid s ∧
    s1.public_group_uuid = s.public_group_uuid ∧
    s1.memberships = s.memberships ∧
    s1.groupPerms = (s.public_group_uuid, uuid, GROUP_OBJECT_PERMISSION_READ) ::
      s.groupPerms.filter (fun e => !(e.1 == s.public_group_uuid && e.2.1 == uuid)) := by
  cases u with
  | none => simp [new_worksheet] at h
  | some usr =>
    simp only [new_worksheet] at h
    split at h
    · simp at h
    · split at h
      · simp at h
      · rename_i s2 heq2
        split at h
        · simp at h
        · rename_i s3 heq3
          split at h
          · simp at h
          · rename_i s4 heq4
            cases h
            have e2 := set_worksheet_permission_ok _ _ _ _ _ _ heq2
            have t3 : s3.groupPerms = s2.groupPerms ∧
                s3.public_group_uuid = s2.public_group_uuid ∧
                s3.memberships = s2.memberships := by
              by_cases hd : is_dashboard name = true
              · rw [if_pos hd] at heq3
                exact populate_worksheet_acl _ _ _ _ _ _ heq3
              · rw [if_neg hd] at heq3
                cases heq3
                exact ⟨rfl, rfl, rfl⟩
            have t4 : s1.groupPerms = s3.groupPerms ∧
                s1.public_group_uuid = s3.public_group_uuid ∧
                s1.memberships = s3.memberships := by
              by_cases hp : is_public_home name = true
              · rw [if_pos hp] at heq4
                exact populate_worksheet_acl _ _ _ _ _ _ heq4
              · rw [if_neg hp] at heq4
                cases heq4
                exact ⟨rfl, rfl, rfl⟩
            subst e2
            refine ⟨rfl, ?_, ?_, ?_⟩
            · rw [t4.2.1, t3.2.1]
              rfl
            · rw [t4.2.2, t3.2.2]
              rfl
            · rw [t4.1, t3.1]
              rfl

/-- C10: every worksheet successfully created through new_worksheet carries,
immediately after creation, a Read ACL entry for the distinguished public
group, so any caller, anonymous included, holds at least Read permission on
it. -/
theorem new_worksheet_public_read
    (s : St) (u : Option User) (name : String) (uuid : String) (s1 : St)
    (h : new_worksheet s u name = .ok (uuid, s1)) :
    lookupGroupPerm s1 s.public_group_uuid uuid = some GROUP_OBJECT_PERMISSION_READ
    ∧ (∀ (v : Option User) (w : Worksheet), findWorksheet s1 uuid = some w →
        GROUP_OBJECT_PERMISSION_READ ≤ permissionLevel s1 v w) := by
  obtain ⟨hu, hpub, hmem, hgp⟩ := new_worksheet_ok s u name uuid s1 h
  constructor
  · unfold lookupGroupPerm
    rw [hgp]
    rw [List.find?_cons_of_pos _ (by simp)]
    rfl
  · intro v w hw
    have hwu : w.uuid = uuid := eq_of_beq (findWorksheet_uuid s1 uuid w hw)
    unfold permissionLevel
    split
    · decide
    · have hmem1 : (s.public_group_uuid, uuid, GROUP_OBJECT_PERMISSION_READ) ∈
          s1.groupPerms := by
        rw [hgp]
        exact List.mem_cons_self _ _
      have hcond : (isMember s1 v s.public_group_uuid && (uuid == w.uuid)) = true := by
        unfold isMember
        rw [hpub]
        simp [hwu]
      exact permFold_ge s1 v w.uuid s1.groupPerms s.public_group_uuid uuid
        GROUP_OBJECT_PERMISSION_READ hmem1 hcond

/-- C10 witness: creating a plain worksheet in the sample state grants the
public group Read on the returned uuid. -/
theorem new_worksheet_public_read_witness :
    (new_worksheet baseSt (some alice) "myws").toOption.map
      (fun r => lookupGroupPerm r.2 baseSt.public_group_uuid r.1) =
      some (some GROUP_OBJECT_PERMISSION_READ) := by
  cases hr : new_worksheet baseSt (some alice) "myws" with
  | error e =>
    have hok : (new_worksheet baseSt (some alice) "myws").toOption.isSome = true := by decide
    rw [hr] at hok
    simp [Except.toOption] at hok
  | ok r =>
    obtain ⟨ru, rs⟩ := r
    have h1 := (new_worksheet_public_read baseSt (some alice) "myws" ru rs hr).1
    simpa [Except.toOption] using h1

/-- C3 counterexample: with the resolution step having read the snapshot in
which alice's home worksheet did not yet exist and the race winner having
created it (winnerSt holds a worksheet named home-alice), the loser's
get_worksheet_uuid_or_create does not re-resolve and return the winner's
uuid: the name-collision UsageError from the lazy creation propagates to the
caller. -/
theorem resolver_race_collision_counterexample :
    get_worksheet_uuid_or_create_race baseSt winnerSt (some alice) none "" =
      .error (.UsageError "Worksheet with name home-alice already exists") ∧
    (findWorksheet winnerSt "0xh").map Worksheet.name =
      some (home_worksheet alice.user_name) := by
  decide

/-- C3 amended: when step-1 resolution read a snapshot without the worksheet,
the spec is empty or the home token, and the current state already holds a
worksheet with the caller's home name (the race winner's), the resolver
propagates the name-collision UsageError from new_worksheet instead of
re-resolving (the except clause catches only NotFoundError). -/
theorem resolver_race_propagates_collision
    (s1 s2 : St) (usr : User) (base : Option String) (spec : String) (e : Err)
    (hmiss : canonicalize_get_worksheet_uuid s1 (some usr) base spec = .error e)
    (hnf : e.isNotFound = true)
    (hspec : spec = "" ∨ spec = HOME_WORKSHEET)
    (hwinner : (s2.worksheets.find?
      (fun w => w.name == home_worksheet usr.user_name)).isSome = true) :
    get_worksheet_uuid_or_create_race s1 s2 (some usr) base spec =
      .error (.UsageError ("Worksheet with name " ++ home_worksheet usr.user_name ++
        " already exists")) := by
  have hens : ensure_unused_worksheet_name s2 (some usr) (home_worksheet usr.user_name) =
      .error (.UsageError ("Worksheet with name " ++ home_worksheet usr.user_name ++
        " already exists")) := by
    obtain ⟨w, hw⟩ := Option.isSome_iff_exists.mp hwinner
    unfold ensure_unused_worksheet_name
    have hcond : (is_home_worksheet (home_worksheet usr.user_name) &&
        !(home_worksheet (optUserName (some usr)) == home_worksheet usr.user_name)) =
        false := by
      simp [optUserName]
    rw [if_neg (by simp [hcond])]
    unfold canonicalize_get_worksheet_uuid
    rw [home_worksheet_ne_empty, home_worksheet_ne_token]
    simp only [Bool.or_self, Bool.false_eq_true, if_false, hw]
  have hc : (spec == "" || spec == HOME_WORKSHEET) = true := by
    rcases hspec with rfl | rfl <;> simp
  simp only [get_worksheet_uuid_or_create_race, hmiss, hnf, hc, Option.isSome_some,
    Bool.and_self, if_true, optUserName, new_worksheet, hens]

/-- C3 witness: the amended behaviour at the sample race states. -/
theorem resolver_race_propagates_collision_witness :
    get_worksheet_uuid_or_create_race baseSt winnerSt (some alice) none "" =
      .error (.UsageError ("Worksheet with name " ++ home_worksheet alice.user_name ++
        " already exists")) :=
  resolver_race_propagates_collision baseSt winnerSt alice none ""
    (.NotFoundError "Worksheet home-alice not found") (by decide) (by decide)
    (Or.inl rfl) (by decide)

/-- When the caller's home name is unused, new_worksheet creates the home
worksheet owned by the caller and returns the fresh uuid. -/
theorem new_worksheet_home_ok (s : St) (usr : User)
    (hnone : s.worksheets.find? (fun w => w.name == home_worksheet usr.user_name) = none) :
    ∃ sf, new_worksheet s (some usr) (home_worksheet usr.user_name) =
        .ok (freshUuid s, sf) ∧
      ∃ w, findWorksheet sf (freshUuid s) = some w ∧
        w.name = home_worksheet usr.user_name ∧ w.owner_id = usr.user_id := by
  have hens : ensure_unused_worksheet_name s (some usr) (home_worksheet usr.user_name) =
      .ok () := by
    unfold ensure_unused_worksheet_name
    rw [if_neg (by simp [optUserName])]
    unfold canonicalize_get_worksheet_uuid
    rw [home_worksheet_ne_empty, home_worksheet_ne_token]
    simp only [Bool.or_self, Bool.false_eq_true, if_false, hnone, Err.isNotFound, if_true]
  simp only [new_worksheet, hens]
  simp only [set_worksheet_permission, check_worksheet_has_all_permission, permissionLevel,
    beq_self_eq_true, if_true, le_refl]
  simp only [home_worksheet_ne_dashboard, home_worksheet_ne_public_home,
    Bool.false_eq_true, if_false]
  refine ⟨_, rfl, ?_⟩
  refine ⟨{ uuid := freshUuid s, name := home_worksheet usr.user_name, owner_id := usr.user_id, title := none, tags := [], frozen := none, items := [], last_item_id := s.clock }, ?_, rfl, rfl⟩
  simp [findWorksheet, Store.setGroupPerm, Store.newWorksheet]

/-- C4 counterexample: the claim says a dashboard spec that fails resolution
leads to creation of the dashboard worksheet and its uuid being returned, but
for an anonymous caller the creation attempt fails with PermissionError: in
the sample state (no dashboard worksheet exists) the anonymous resolver call
returns neither a created uuid nor the NotFound error. -/
theorem dashboard_anonymous_counterexample :
    get_worksheet_uuid_or_create baseSt none none "dashboard" =
      .error (.PermissionError "You must be logged in to create a worksheet.") := by
  decide

/-- C4 amended: get_worksheet_uuid_or_create returns the uuid of an existing
worksheet when step-1 resolution succeeds; on NotFound, with a caller present
and an empty or home-token spec it delegates to creation of that caller's
deterministically named home worksheet (which succeeds with a fresh uuid when
the home name is unused); with a dashboard spec it delegates to creation of
the dashboard worksheet, which requires an authenticated caller
(PermissionError when anonymous) and succeeds for an authenticated caller
(demonstrated on the sample state); in every other case the NotFound error
propagates. -/
theorem get_worksheet_uuid_or_create_contract
    (s : St) (u : Option User) (base : Option String) (spec : String) :
    (∀ uuid, canonicalize_get_worksheet_uuid s u base spec = .ok uuid →
      get_worksheet_uuid_or_create s u base spec = .ok (uuid, s))
    ∧ (∀ e, canonicalize_get_worksheet_uuid s u base spec = .error e →
        e.isNotFound = true →
        (∀ usr, u = some usr → (spec = "" ∨ spec = HOME_WORKSHEET) →
          get_worksheet_uuid_or_create s u base spec =
            new_worksheet s u (home_worksheet usr.user_name)
          ∧ (s.worksheets.find? (fun w => w.name == home_worksheet usr.user_name) = none →
            ∃ sf, get_worksheet_uuid_or_create s u base spec = .ok (freshUuid s, sf) ∧
              ∃ w, findWorksheet sf (freshUuid s) = some w ∧
                w.name = home_worksheet usr.user_name ∧ w.owner_id = usr.user_id))
        ∧ (is_dashboard spec = true →
          get_worksheet_uuid_or_create s u base spec = new_worksheet s u spec
          ∧ (u = none → get_worksheet_uuid_or_create s u base spec =
              .error (.PermissionError "You must be logged in to create a worksheet.")))
        ∧ (((spec == "" || spec == HOME_WORKSHEET) && u.isSome) = false →
          is_dashboard spec = false →
          get_worksheet_uuid_or_create s u base spec = .error e))
    ∧ (get_worksheet_uuid_or_create baseSt (some alice) none "dashboard").toOption.map
        (fun r => ((findWorksheet r.2 r.1).map Worksheet.name, r.1)) =
        some (some "dashboard", freshUuid baseSt) := by
  refine ⟨?_, ?_, by decide⟩
  · intro uuid hok
    simp only [get_worksheet_uuid_or_create, get_worksheet_uuid_or_create_race, hok]
  · intro e hmiss hnf
    refine ⟨?_, ?_, ?_⟩
    · intro usr hu hspec
      subst hu
      have hc : (spec == "" || spec == HOME_WORKSHEET) = true := by
        rcases hspec with rfl | rfl <;> simp
      have hget : get_worksheet_uuid_or_create s (some usr) base spec =
          new_worksheet s (some usr) (home_worksheet usr.user_name) := by
        simp only [get_worksheet_uuid_or_create, get_worksheet_uuid_or_create_race, hmiss,
          hnf, hc, Option.isSome_some, Bool.and_self, if_true, optUserName]
      refine ⟨hget, ?_⟩
      intro hnone
      obtain ⟨sf, hok2, hw⟩ := new_worksheet_home_ok s usr hnone
      exact ⟨sf, hget.trans hok2, hw⟩
    · intro hd
      have hsd : spec = "dashboard" := eq_of_beq hd
      subst hsd
      have h1 : ("dashboard" == "" || "dashboard" == HOME_WORKSHEET) = false := by decide
      have hcd : (("dashboard" == "" || "dashboard" == HOME_WORKSHEET) && u.isSome) = false := by
        rw [h1]
        exact Bool.false_and _
      have hget : get_worksheet_uuid_or_create s u base "dashboard" =
          new_worksheet s u "dashboard" := by
        simp only [get_worksheet_uuid_or_create, get_worksheet_uuid_or_create_race, hmiss,
          hnf, if_true, hcd, Bool.false_eq_true, if_false]
        simp [is_dashboard]
      refine ⟨hget, ?_⟩
      intro hun
      subst hun
      rw [hget]
      simp [new_worksheet]
    · intro hn hd
      simp only [get_worksheet_uuid_or_create, get_worksheet_uuid_or_create_race, hmiss,
        hnf, if_true, hn, Bool.false_eq_true, if_false, hd]

/-- C4 witness: resolving the empty spec for bob (whose home worksheet does
not exist in the sample state) creates home-bob and returns the fresh
uuid. -/
theorem get_worksheet_uuid_or_create_contract_witness :
    ∃ sf, get_worksheet_uuid_or_create baseSt (some bob) none "" =
        .ok (freshUuid baseSt, sf) ∧
      ∃ w, findWorksheet sf (freshUuid baseSt) = some w ∧
        w.name = home_worksheet bob.user_name ∧ w.owner_id = bob.user_id :=
  ((((get_worksheet_uuid_or_create_contract baseSt (some bob) none "").2.1
    (.NotFoundError "Worksheet home-bob not found") (by decide) (by decide)).1
    bob rfl (Or.inl rfl)).2 (by decide))

/-- firstOccurrences keeps exactly the elements of the input. -/
theorem mem_firstOccurrences (x : String) : ∀ (l : List String),
    x ∈ firstOccurrences l ↔ x ∈ l := by
  intro l
  induction l with
  | nil => simp [firstOccurrences]
  | cons a l ih =>
    simp only [firstOccurrences, List.mem_cons, List.mem_filter]
    constructor
    · rintro (rfl | ⟨hx, _⟩)
      · exact Or.inl rfl
      · exact Or.inr (ih.mp hx)
    · rintro (rfl | hx)
      · exact Or.inl rfl
      · by_cases hax : x = a
        · exact Or.inl hax
        · exact Or.inr ⟨ih.mpr hx, by simp [bne, hax]⟩

/-- firstOccurrences has no duplicates. -/
theorem nodup_firstOccurrences : ∀ (l : List String), (firstOccurrences l).Nodup := by
  intro l
  induction l with
  | nil => simp [firstOccurrences]
  | cons a l ih =>
    simp only [firstOccurrences]
    refine List.Nodup.cons ?_ (List.Nodup.filter _ ih)
    intro hmem
    have := (List.mem_filter.mp hmem).2
    simp [bne] at this

/-- Prepending one store op changes the replacement count by its match. -/
theorem countReplaceOps_cons (x : String) (op : StoreOp) (tr : List StoreOp) :
    countReplaceOps x (op :: tr) =
      (match op with
        | StoreOp.replaceItems u2 _ => if (u2 == x) = true then 1 else 0
        | _ => 0) + countReplaceOps x tr := by
  unfold countReplaceOps
  cases op <;> simp [List.filter_cons] <;> split <;> simp_all <;> omega

/-- Prepending one store op changes the append count by its match. -/
theorem countAppendOps_cons (x : String) (op : StoreOp) (tr : List StoreOp) :
    countAppendOps x (op :: tr) =
      (match op with
        | StoreOp.appendItem u2 => if (u2 == x) = true then 1 else 0
        | _ => 0) + countAppendOps x tr := by
  unfold countAppendOps
  cases op <;> simp [List.filter_cons] <;> split <;> simp_all <;> omega

/-- Replacement counts ignore a block of appends. -/
theorem countReplaceOps_replicate_append (x k : String) (n : Nat) (tr : List StoreOp) :
    countReplaceOps x (List.replicate n (StoreOp.appendItem k) ++ tr) =
      countReplaceOps x tr := by
  induction n with
  | zero => simp
  | succ n ih =>
    rw [List.replicate_succ, List.cons_append, countReplaceOps_cons, ih]
    simp

/-- Append counts over a block of appends to one worksheet. -/
theorem countAppendOps_replicate_append (x k : String) (n : Nat) (tr : List StoreOp) :
    countAppendOps x (List.replicate n (StoreOp.appendItem k) ++ tr) =
      (if (k == x) = true then n else 0) + countAppendOps x tr := by
  induction n with
  | zero => simp
  | succ n ih =>
    rw [List.replicate_succ, List.cons_append, countAppendOps_cons, ih]
    by_cases hk : (k == x) = true <;> simp [hk]
    omega

/-- The trace field of the write bookkeeping. -/
theorem withClockTrace_trace (s : St) (c : Nat) (tr : List StoreOp) :
    (withClockTrace s c tr).trace = tr := rfl

/-- The append-mode loop issues one store append per posted item. -/
theorem appendItems_trace (u : Option User) (wuuid : String) :
    ∀ (items : List SchemaItem) (s s1 : St), appendItems s u wuuid items = .ok s1 →
      s1.trace = List.replicate items.length (StoreOp.appendItem wuuid) ++ s.trace := by
  intro items
  induction items with
  | nil =>
    intro s s1 h
    unfold appendItems at h
    cases h
    simp
  | cons it rest ih =>
    intro s s1 h
    unfold appendItems at h
    split at h
    · rename_i sA heq
      have hA := add_worksheet_item_ok _ _ _ _ _ heq
      subst hA
      rw [ih _ _ h, withClockTrace_trace]
      rw [List.length_cons, List.replicate_succ', List.append_assoc]
      simp
    · simp at h

/-- One group of the bulk endpoint produces exactly one conditional
replacement covering all its items in replace mode, and one append per item
otherwise. -/
theorem processItemGroup_trace (s : St) (u : Option User) (replace : Bool)
    (wuuid : String) (items : List SchemaItem) (s1 : St)
    (h : processItemGroup s u replace wuuid items = .ok s1) :
    s1.trace = (if replace = true then [StoreOp.replaceItems wuuid items.length]
      else List.replicate items.length (StoreOp.appendItem wuuid)) ++ s.trace := by
  unfold processItemGroup at h
  split at h
  · simp at h
  · rename_i info heq
    obtain ⟨w, hfw, hiu, _, _⟩ := get_worksheet_info_ok _ _ _ _ _ heq
    have hwu : w.uuid = wuuid := eq_of_beq (findWorksheet_uuid _ _ _ hfw)
    by_cases hrep : replace = true
    · rw [if_pos hrep] at h ⊢
      have hrec := update_worksheet_items_db_ok _ _ _ _ _ h
      subst hrec
      rw [withClockTrace_trace]
      simp [hiu, hwu]
    · rw [if_neg hrep] at h ⊢
      exact appendItems_trace u wuuid items s s1 h

/-- Per-worksheet store-operation counts of the whole grouped loop. -/
theorem processGroups_counts (u : Option User) (replace : Bool) (x : String) :
    ∀ (gs : List (String × List SchemaItem)) (s s1 : St),
      processGroups s u replace gs = .ok s1 →
      countReplaceOps x s1.trace =
        (if replace = true then (gs.filter (fun g => g.1 == x)).length else 0) +
          countReplaceOps x s.trace
      ∧ countAppendOps x s1.trace =
        (if replace = true then 0
          else ((gs.filter (fun g => g.1 == x)).map (fun g => g.2.length)).sum) +
          countAppendOps x s.trace := by
  intro gs
  induction gs with
  | nil =>
    intro s s1 h
    unfold processGroups at h
    cases h
    simp
  | cons g rest ih =>
    intro s s1 h
    obtain ⟨k, its⟩ := g
    unfold processGroups at h
    split at h
    · rename_i sA heq
      have htr := processItemGroup_trace _ _ _ _ _ _ heq
      have hih := ih sA s1 h
      by_cases hrep : replace = true
      · rw [if_pos hrep] at htr
        have e1 : countReplaceOps x sA.trace =
            (if (k == x) = true then 1 else 0) + countReplaceOps x s.trace := by
          rw [htr, List.singleton_append, countReplaceOps_cons]
        have e2 : countAppendOps x sA.trace = countAppendOps x s.trace := by
          rw [htr, List.singleton_append, countAppendOps_cons]
          simp
        constructor
        · rw [hih.1, e1, if_pos hrep, if_pos hrep, List.filter_cons]
          by_cases hk : (k == x) = true <;> simp [hk] <;> omega
        · rw [hih.2, e2, if_pos hrep, if_pos hrep]
      · rw [if_neg hrep] at htr
        have e1 : countReplaceOps x sA.trace = countReplaceOps x s.trace := by
          rw [htr, countReplaceOps_replicate_append]
        have e2 : countAppendOps x sA.trace =
            (if (k == x) = true then its.length else 0) + countAppendOps x s.trace := by
          rw [htr, countAppendOps_replicate_append]
        constructor
        · rw [hih.1, e1, if_neg hrep, if_neg hrep]
        · rw [hih.2, e2, if_neg hrep, if_neg hrep, List.filter_cons]
          by_cases hk : (k == x) = true <;> simp [hk] <;> omega
    · simp at h

/-- With distinct keys, the groups matching one key collapse to at most one
group holding that key's filtered batch items. -/
theorem grouped_filter_counts (x : String) (batch : List SchemaItem) :
    ∀ (keys : List String), keys.Nodup →
      (((keys.map (fun k => (k, batch.filter (fun i => i.worksheet_uuid == k)))).filter
          (fun g => g.1 == x)).length = if x ∈ keys then 1 else 0)
      ∧ ((((keys.map (fun k => (k, batch.filter (fun i => i.worksheet_uuid == k)))).filter
          (fun g => g.1 == x)).map (fun g => g.2.length)).sum =
          if x ∈ keys then (batch.filter (fun i => i.worksheet_uuid == x)).length else 0) := by
  intro keys
  induction keys with
  | nil => simp
  | cons a keys ih =>
    intro hnd
    obtain ⟨hna, hndt⟩ := List.nodup_cons.mp hnd
    obtain ⟨ih1, ih2⟩ := ih hndt
    rw [List.map_cons, List.filter_cons]
    by_cases ha : ((a, batch.filter (fun i => i.worksheet_uuid == a)).1 == x) = true
    · have hax : a = x := eq_of_beq ha
      subst hax
      have hnotin : a ∉ keys := hna
      rw [if_pos ha]
      constructor
      · rw [List.length_cons, ih1, if_neg hnotin]
        simp [List.mem_cons]
      · rw [List.map_cons, List.sum_cons, ih2, if_neg hnotin]
        simp [List.mem_cons]
    · have hax : ¬ (x = a) := fun he => ha (by simp [he])
      rw [if_neg ha]
      constructor
      · rw [ih1]
        by_cases hm : x ∈ keys <;> simp [hm, List.mem_cons, hax]
      · rw [ih2]
        by_cases hm : x ∈ keys <;> simp [hm, List.mem_cons, hax]

/-- A uuid outside the batch selects no batch items. -/
theorem filter_uuid_not_mem (x : String) (batch : List SchemaItem)
    (hx : x ∉ batch.map (fun i => i.worksheet_uuid)) :
    batch.filter (fun i => i.worksheet_uuid == x) = [] := by
  rw [List.filter_eq_nil]
  intro i hi hbeq
  exact hx (List.mem_map.mpr ⟨i, hi, eq_of_beq hbeq⟩)

/-- The group keys are the distinct target uuids in posting order. -/
theorem groupByWorksheet_keys (batch : List SchemaItem) :
    (groupByWorksheet batch).map Prod.fst =
      firstOccurrences (batch.map (fun i => i.worksheet_uuid)) := by
  unfold groupByWorksheet
  rw [List.map_map]
  exact List.map_id' _

/-- C7 amended: create_worksheet_items groups the posted items by target
worksheet uuid (distinct keys, each holding exactly the batch items for that
worksheet in posting order); with replace=true each target worksheet receives
exactly one conditional whole-list replacement covering all of its batch
items and no appends, while with replace=false each target receives one
separate store append per posted item (not a single atomic operation). -/
theorem create_worksheet_items_grouped
    (s : St) (u : Option User) (replace : Bool) (batch : List SchemaItem) :
    ((groupByWorksheet batch).map Prod.fst).Nodup
    ∧ (∀ g ∈ groupByWorksheet batch,
        g.2 = batch.filter (fun i => i.worksheet_uuid == g.1))
    ∧ (∀ i ∈ batch, i.worksheet_uuid ∈ (groupByWorksheet batch).map Prod.fst)
    ∧ (∀ s1, create_worksheet_items s u replace batch = .ok s1 → ∀ x,
        countReplaceOps x s1.trace =
          (if replace = true ∧ x ∈ batch.map (fun i => i.worksheet_uuid) then 1 else 0) +
            countReplaceOps x s.trace
        ∧ countAppendOps x s1.trace =
          (if replace = true then 0
            else (batch.filter (fun i => i.worksheet_uuid == x)).length) +
            countAppendOps x s.trace) := by
  refine ⟨?_, ?_, ?_, ?_⟩
  · rw [groupByWorksheet_keys]
    exact nodup_firstOccurrences _
  · intro g hg
    obtain ⟨k, hk, rfl⟩ := List.mem_map.mp hg
    rfl
  · intro i hi
    rw [groupByWorksheet_keys]
    exact (mem_firstOccurrences _ _).mpr (List.mem_map_of_mem _ hi)
  · intro s1 h x
    unfold create_worksheet_items at h
    obtain ⟨h1, h2⟩ := processGroups_counts u replace x (groupByWorksheet batch) s s1 h
    have hmemiff : (x ∈ firstOccurrences (batch.map (fun i => i.worksheet_uuid))) ↔
        x ∈ batch.map (fun i => i.worksheet_uuid) :=
      mem_firstOccurrences x _
    obtain ⟨g1, g2⟩ := grouped_filter_counts x batch
      (firstOccurrences (batch.map (fun i => i.worksheet_uuid)))
      (nodup_firstOccurrences _)
    constructor
    · rw [h1]
      unfold groupByWorksheet
      rw [g1]
      by_cases hr : replace = true <;>
        by_cases hm : x ∈ batch.map (fun i => i.worksheet_uuid) <;>
          simp [hr, hm, hmemiff]
    · rw [h2]
      unfold groupByWorksheet
      rw [g2]
      by_cases hr : replace = true
      · simp [hr]
      · by_cases hm : x ∈ batch.map (fun i => i.worksheet_uuid)
        · simp [hr, hmemiff, hm]
        · rw [filter_uuid_not_mem x batch hm]
          simp [hr, hmemiff, hm]

/-- C7 witness: the owner posting one markup item to wsA in replace mode
issues exactly one replacement covering it and no appends. -/
theorem create_worksheet_items_grouped_witness :
    (create_worksheet_items baseSt (some alice) true [si1]).toOption.map
      (fun s1 => (countReplaceOps "0xa" s1.trace, countAppendOps "0xa" s1.trace)) =
      some (1, 0) := by
  cases hr : create_worksheet_items baseSt (some alice) true [si1] with
  | error e =>
    have hok : (create_worksheet_items baseSt (some alice) true [si1]).toOption.isSome =
        true := by decide
    rw [hr] at hok
    simp [Except.toOption] at hok
  | ok s1 =>
    have h1 := (create_worksheet_items_grouped baseSt (some alice) true [si1]).2.2.2
      s1 hr "0xa"
    simp [Except.toOption]
    rw [h1.1, h1.2]
    simp [baseSt, si1]
    decide

/-- C7 counterexample: the claim promises one atomic operation per target
worksheet covering all its batch items, but in append mode two posted items
for the same worksheet yield two separate store appends. -/
theorem create_worksheet_items_append_not_single_op :
    (create_worksheet_items baseSt (some alice) false [si1, si2]).toOption.map
      (fun s1 => countItemWriteOps "0xa" s1.trace) = some 2 := by
  decide
